import Mathlib

/-!
Verification of `torch/sparse/semi_structured.py`: the
`SparseSemiStructuredTensor` wrapper subclass and its operator dispatch,
shallowly embedded in Lean.

Modelling conventions:
* A dense 2-D tensor is a row-major `List (List Int)`; the `Int` entries stand
  for the raw element payloads (for `float16` an entry stands for the 16-bit
  pattern of the element, for `int8` the 8-bit pattern).  Nothing in the file
  under verification computes with floating-point values: it only moves, slices,
  reshapes and reinterprets elements, so an opaque integer payload per element
  is a faithful grain.
* A storage buffer carries an allocation identifier `addr` so that "identical
  underlying buffer reference" (Python `is`) is expressible: the dispatcher only
  ever copies the `compressed_tensor` field into new instances, so equality of
  the whole `Buffer` value (including `addr`) models reference identity.
* The external kernel `torch._structured_sparse_linear` is injected as an
  explicit function argument (it lives outside this repository); theorems
  quantify over it.
* Python exceptions are modelled with `Except PyError`.
-/

namespace SemiStructured

/-- Python dtypes that occur in the module.  `float32` stands in for any
unsupported dtype reaching the constructor's dtype check. -/
inductive PyDtype where
  | float16
  | int8
  | int16
  | int32
  | float32
  deriving DecidableEq, Repr

/-- `tensor.element_size()`: bytes per element. -/
def element_size : PyDtype → Nat
  | .float16 => 2
  | .int8 => 1
  | .int16 => 2
  | .int32 => 4
  | .float32 => 4

/-- The namedtuple `_SEMI_STRUCTURED_SPARSE_CONFIG(compression_factor, n, min_size)`
(line 13 of the source). -/
structure _SEMI_STRUCTURED_SPARSE_CONFIG where
  compression_factor : Nat
  n : Nat
  min_size : Nat
  deriving DecidableEq, Repr

/-- The dict `_DTYPE_TO_SEMI_STRUCTURED_SPARSE_CONFIG` (lines 16-19):
`torch.float16 ↦ (9, 2, 64)`, `torch.int8 ↦ (10, 2, 128)`; lookup of any other
dtype misses (`none`). -/
def _DTYPE_TO_SEMI_STRUCTURED_SPARSE_CONFIG :
    PyDtype → Option _SEMI_STRUCTURED_SPARSE_CONFIG
  | .float16 => some ⟨9, 2, 64⟩
  | .int8 => some ⟨10, 2, 128⟩
  | _ => none

/-- A 1-D storage tensor, with an allocation identifier so that Python
reference identity (`is`) is expressible as equality of `Buffer` values. -/
structure Buffer where
  addr : Nat
  dtype : PyDtype
  data : List Int
  deriving DecidableEq, Repr

/-- A dense row-major matrix of raw element payloads. -/
abbrev DMat := List (List Int)

/-- The wrapper subclass: logical (uncompressed) shape `custom_shape`, the
single contiguous `compressed_tensor` storing kept values followed by metadata,
and the logical-transposition flag (`__init__`, lines 70-90).  The wrapper's
reported dtype is `compressed_tensor.dtype` (`__new__`, line 64). -/
structure SparseSemiStructuredTensor where
  shape : Nat × Nat
  compressed_tensor : Buffer
  transposed : Bool
  deriving DecidableEq, Repr

/-- The wrapper's dtype is inherited from the compressed storage (line 64). -/
def SparseSemiStructuredTensor.dtype (x : SparseSemiStructuredTensor) : PyDtype :=
  x.compressed_tensor.dtype

/-- Row-major `view(m, c)` of a flat list: `m` rows of `c` consecutive
elements. -/
def reshape : Nat → Nat → List Int → DMat
  | 0, _, _ => []
  | m + 1, c, l => l.take c :: reshape m c (l.drop c)

/-- Transpose of a dense matrix (`Tensor.t()` on an ordinary dense operand). -/
def transposeD (d : DMat) : DMat :=
  (List.range (d.headD []).length).map fun j => d.map fun row => row.getD j 0

/-- `metadata.view(torch.int32)` on an int8-typed row: reinterprets each 4
consecutive 8-bit payloads as one 32-bit payload (little-endian byte order). -/
def packInt8To32 : List Int → List Int
  | b0 :: b1 :: b2 :: b3 :: rest =>
      (b0 % 256 + b1 % 256 * 256 + b2 % 256 * 65536 + b3 % 256 * 16777216)
        :: packInt8To32 rest
  | _ => []

/-- `aten.values.default` branch (lines 194-198): the first `m * k // 2` buffer
elements, viewed as `(m, k // 2)`. -/
def SparseSemiStructuredTensor.values (x : SparseSemiStructuredTensor) : DMat :=
  let m := x.shape.1
  let k := x.shape.2
  let num_kept_elements := m * k / 2
  reshape m (k / 2) (x.compressed_tensor.data.take num_kept_elements)

/-- The `metadata` local of the `aten.indices.default` branch (line 204): the
buffer elements past the kept-values region, viewed as `(m, -1)` — i.e. `m`
rows of `(len - m*k/2) / m` elements each. -/
def SparseSemiStructuredTensor.metadataRaw (x : SparseSemiStructuredTensor) : DMat :=
  let m := x.shape.1
  let k := x.shape.2
  let num_kept_elements := m * k / 2
  let rest := x.compressed_tensor.data.drop num_kept_elements
  reshape m (rest.length / m) rest

/-- `aten.indices.default` branch (lines 200-210): the metadata region,
reinterpreted per element dtype — a 32-bit integer view for `int8`, a 16-bit
integer view for `float16` (for `float16` the elements are already 16-bit
payloads, so the reinterpretation is element-wise identity on payloads).  Any
other dtype falls out of the `if`/`elif` and hits the `NotImplementedError`
raise, modelled by `none` here and handled in the dispatcher. -/
def SparseSemiStructuredTensor.indices (x : SparseSemiStructuredTensor) : Option DMat :=
  match x.dtype with
  | .int8 => some ((x.metadataRaw).map packInt8To32)
  | .float16 => some x.metadataRaw
  | _ => none

/-- The aten operator identifiers the dispatcher matches on; `other` covers
every operator outside the handled set. -/
inductive ATen where
  | detach
  | t
  | addmm
  | mm
  | linear
  | values
  | indices
  | other (name : String)
  deriving DecidableEq, Repr

/-- The printable name of the operator, as it appears in the raised
error string. -/
def atenName : ATen → String
  | .detach => "aten.detach.default"
  | .t => "aten.t.default"
  | .addmm => "aten.addmm.default"
  | .mm => "aten.mm.default"
  | .linear => "aten.linear.default"
  | .values => "aten.values.default"
  | .indices => "aten.indices.default"
  | .other name => name

/-- An argument of a dispatched call: either an ordinary dense tensor or a
compressed wrapper instance. -/
inductive Operand where
  | dense (d : DMat)
  | sparse (s : SparseSemiStructuredTensor)
  deriving DecidableEq, Repr

/-- The `repr`/f-string rendering of one operand in the diagnostic error
string (`f"arg{i}: {arg}"`, line 214). -/
def renderOperand : Operand → String
  | .dense d => "tensor(" ++ toString (repr d) ++ ")"
  | .sparse s =>
      "SparseSemiStructuredTensor(shape=" ++ toString s.shape.1 ++ "x"
        ++ toString s.shape.2 ++ ", transposed=" ++ toString s.transposed ++ ")"

/-- The diagnostic raised by the fall-through branch (lines 212-215):
`"\n".join([f"func {func} with args: "] + [f"arg{i}: {arg}" for i, arg in enumerate(args)])`.
We keep the list of lines (the `join` is presentation only). -/
def errorLines (f : ATen) (args : List Operand) : List String :=
  ("func " ++ atenName f ++ " with args: ")
    :: args.enum.map fun p => "arg" ++ toString p.1 ++ ": " ++ renderOperand p.2

/-- Python exceptions of the module. -/
inductive PyError where
  /-- `NameError: name '<n>' is not defined`. -/
  | nameError (n : String)
  /-- `NotImplementedError` for `mask=None` at construction (lines 285-291). -/
  | missingMask
  /-- `RuntimeError` for a non-CUDA device (lines 294-300). -/
  | unsupportedDevice
  /-- `RuntimeError` for a tensor of dim ≠ 2 (lines 303-309). -/
  | unsupportedDim (d : Nat)
  /-- `RuntimeError` for a dtype outside the config table (lines 312-318). -/
  | unsupportedDtype (dt : PyDtype)
  /-- `RuntimeError` for dimensions below or not multiples of `min_size`
  (lines 321-330). -/
  | unsupportedShape (m n : Nat)
  /-- `NotImplementedError` from the dispatch fall-through (line 216), carrying
  the diagnostic lines. -/
  | notImplementedOp (lines : List String)
  /-- A Python-level failure from accessing `compressed_tensor`/destructuring
  on an operand of the wrong kind or arity (not reachable from well-formed
  dispatched calls). -/
  | attributeError
  /-- A `view`/assignment size mismatch at construction (lines 353-358). -/
  | viewError
  deriving DecidableEq, Repr

/-- The external kernel `torch._structured_sparse_linear` (not part of this
repository): given a dense operand, a values view, a metadata view and an
optional bias, returns the dense product and a metadata tensor. -/
def Kernel : Type :=
  Operand → DMat → DMat → Option Operand → DMat × DMat

/-- `.t()` applied to an arbitrary operand, as the `mm` branch does on
`input_B` (line 173): on a dense tensor the real transpose; on a wrapper
instance, re-entry into the dispatcher's `aten.t.default` branch, i.e. same
shape and buffer with the flag flipped (lines 141-146). -/
def operandT : Operand → Operand
  | .dense d => .dense (transposeD d)
  | .sparse s => .sparse ⟨s.shape, s.compressed_tensor, !s.transposed⟩

/-- `SparseSemiStructuredTensor.__torch_dispatch__` (lines 110-216), with the
kernel injected.  The `Nat` paired with a successful result counts the calls
made to the external kernel during the dispatch.  Branches are tried in source
order: `detach`, `t`, `addmm`, `mm`, `linear`, `values`, `indices`, then the
`NotImplementedError` fall-through; a branch whose inner condition fails falls
through to the final raise exactly as in the source. -/
def torch_dispatch (kernel : Kernel) (func : ATen) (args : List Operand) :
    Except PyError (Operand × Nat) :=
  match func, args with
  | .detach, [.sparse x] =>
      .ok (.sparse ⟨x.shape, x.compressed_tensor, x.transposed⟩, 0)
  | .detach, _ => .error .attributeError
  | .t, [.sparse x] =>
      .ok (.sparse ⟨x.shape, x.compressed_tensor, !x.transposed⟩, 0)
  | .t, _ => .error .attributeError
  | .addmm, [bias, input_A, input_B] =>
      match input_B with
      | .sparse b =>
          if b.transposed then
            match b.indices with
            | some ib => .ok (.dense (kernel input_A b.values ib (some bias)).1, 1)
            | none =>
                .error (.notImplementedOp (errorLines .indices [.sparse b]))
          else
            .error (.notImplementedOp (errorLines .addmm [bias, input_A, input_B]))
      | .dense _ =>
          .error (.notImplementedOp (errorLines .addmm [bias, input_A, input_B]))
  | .addmm, otherArgs => .error (.notImplementedOp (errorLines .addmm otherArgs))
  | .mm, [input_A, input_B] =>
      match input_A, input_B with
      | .sparse a, _ =>
          if !a.transposed then
            match a.indices with
            | some ia =>
                .ok (.dense (transposeD
                  (kernel (operandT input_B) a.values ia none).1), 1)
            | none =>
                .error (.notImplementedOp (errorLines .indices [.sparse a]))
          else
            match input_B with
            | .sparse b =>
                if b.transposed then
                  match b.indices with
                  | some ib =>
                      .ok (.dense (kernel input_A b.values ib none).1, 1)
                  | none =>
                      .error (.notImplementedOp (errorLines .indices [.sparse b]))
                else
                  .error (.notImplementedOp (errorLines .mm [input_A, input_B]))
            | .dense _ =>
                .error (.notImplementedOp (errorLines .mm [input_A, input_B]))
      | .dense _, .sparse b =>
          if b.transposed then
            match b.indices with
            | some ib => .ok (.dense (kernel input_A b.values ib none).1, 1)
            | none =>
                .error (.notImplementedOp (errorLines .indices [.sparse b]))
          else
            .error (.notImplementedOp (errorLines .mm [input_A, input_B]))
      | .dense _, .dense _ =>
          .error (.notImplementedOp (errorLines .mm [input_A, input_B]))
  | .mm, otherArgs => .error (.notImplementedOp (errorLines .mm otherArgs))
  | .linear, [input_tensor, weight, bias] =>
      match weight with
      | .sparse w =>
          match w.indices with
          | some iw =>
              .ok (.dense (kernel input_tensor w.values iw (some bias)).1, 1)
          | none => .error (.notImplementedOp (errorLines .indices [.sparse w]))
      | .dense _ =>
          .error (.notImplementedOp (errorLines .linear [input_tensor, weight, bias]))
  | .linear, otherArgs => .error (.notImplementedOp (errorLines .linear otherArgs))
  | .values, [.sparse x] => .ok (.dense x.values, 0)
  | .values, _ => .error .attributeError
  | .indices, [.sparse x] =>
      match x.indices with
      | some ix => .ok (.dense ix, 0)
      | none => .error (.notImplementedOp (errorLines .indices [.sparse x]))
  | .indices, _ => .error .attributeError
  | .other name, otherArgs => .error (.notImplementedOp (errorLines (.other name) otherArgs))

/-! ### Module import and the construction entry point -/

/-- The names visible where a default-parameter expression of a method of
`SparseSemiStructuredTensor` is evaluated: the module's top-level bindings that
exist when the class body executes (imports and the config table, lines 1-19)
together with the relevant builtins.  `"Flase"` is bound nowhere. -/
def moduleScopeNames : List String :=
  ["warnings", "namedtuple", "Optional", "torch", "__all__",
   "_SEMI_STRUCTURED_SPARSE_CONFIG", "_DTYPE_TO_SEMI_STRUCTURED_SPARSE_CONFIG",
   "False", "True", "None", "NotImplementedError", "RuntimeError", "UserWarning"]

/-- Evaluating a bare Python name: its binding if bound, otherwise
`NameError`. -/
def evalPyName (env : List String) (n : String) : Except PyError Unit :=
  if n ∈ env then .ok () else .error (.nameError n)

/-- Executing the module body of `semi_structured.py`.  Executing the class
statement runs the class body, and executing the `def __new__` statement
(line 46) evaluates its default-parameter expression
`transposed: bool = Flase` — the bare name `Flase`, which is bound nowhere in
scope.  Import therefore raises `NameError` before `to_sparse_semi_structured`
is even defined. -/
def importSemiStructured : Except PyError Unit :=
  evalPyName moduleScopeNames "Flase"

/-- An ordinary dense `torch.Tensor` as the constructor sees it: device
placement, shape, dtype and row-major element payloads. -/
structure PyTensor where
  is_cuda : Bool
  shape : List Nat
  dtype : PyDtype
  data : List Int
  deriving DecidableEq, Repr

/-- `tensor.dim()`. -/
def PyTensor.dim (t : PyTensor) : Nat := t.shape.length

/-- `tensor.nelement()`. -/
def PyTensor.nelement (t : PyTensor) : Nat := t.shape.prod

/-- `original_tensor.masked_select(mask)`: the elements at `true` positions,
in row-major order. -/
def maskedSelect (data : List Int) (mask : List Bool) : List Int :=
  ((data.zip mask).filter fun p => p.2).map fun p => p.1

/-- A boolean mask tensor as the dense 0/1 matrix handed to the external
kernel (the construction-time kernel call passes `mask` in the metadata
position, line 354). -/
def maskToDMat (m n : Nat) (mask : List Bool) : DMat :=
  reshape m n (mask.map fun b => if b then (1 : Int) else 0)

/-- The `compressed_size` computation of `to_sparse_semi_structured`
(lines 332-340):
`original_size_bytes = nelement() * element_size()`,
`compressed_size_bytes = original_size_bytes * compression_factor // 16`,
`compressed_size = compressed_size_bytes // element_size()`.
The config lookup cannot miss at its use site (the dtype check has already
passed); a missing lookup is mapped to factor 0. -/
def compressed_size (original_tensor : PyTensor) : Nat :=
  let original_size_bytes :=
    original_tensor.nelement * element_size original_tensor.dtype
  let compression_factor :=
    ((_DTYPE_TO_SEMI_STRUCTURED_SPARSE_CONFIG original_tensor.dtype).map
      fun c => c.compression_factor).getD 0
  original_size_bytes * compression_factor / 16 / element_size original_tensor.dtype

/-- `to_sparse_semi_structured` (lines 219-362), with the external kernel and
the fresh allocation address of `torch.empty` injected.  A call presupposes
that the module body has executed, so the embedding first runs
`importSemiStructured` (which raises `NameError: Flase`, line 46); the
validation chain (lines 284-330), size computation (lines 332-340) and buffer
assembly (lines 342-362) follow it in source order. -/
def to_sparse_semi_structured (kernel : Kernel) (fresh_addr : Nat)
    (original_tensor : PyTensor) (mask : Option (List Bool))
    (transposed : Bool) : Except PyError SparseSemiStructuredTensor := do
  importSemiStructured
  -- check if mask passed in (lines 284-291)
  let maskT ← match mask with
    | none => throw PyError.missingMask
    | some maskT => pure maskT
  -- check device (lines 293-300)
  if original_tensor.is_cuda = false then
    throw PyError.unsupportedDevice
  -- check dim (lines 302-309)
  if original_tensor.dim ≠ 2 then
    throw (PyError.unsupportedDim original_tensor.dim)
  -- check dtype (lines 311-318)
  let config ← match _DTYPE_TO_SEMI_STRUCTURED_SPARSE_CONFIG original_tensor.dtype with
    | none => throw (PyError.unsupportedDtype original_tensor.dtype)
    | some config => pure config
  -- check shape (lines 320-330)
  let m := original_tensor.shape.getD 0 0
  let n := original_tensor.shape.getD 1 0
  if m < config.min_size ∨ m % config.min_size ≠ 0
      ∨ n < config.min_size ∨ n % config.min_size ≠ 0 then
    throw (PyError.unsupportedShape m n)
  -- compressed buffer size (lines 332-346)
  let csize := compressed_size original_tensor
  -- specified = original_tensor.masked_select(mask).view(m, n // 2) (line 353):
  -- the view demands exactly m * (n // 2) selected elements
  let specified_flat := maskedSelect original_tensor.data maskT
  if specified_flat.length ≠ m * (n / 2) then
    throw PyError.viewError
  let specified := reshape m (n / 2) specified_flat
  -- placeholder = torch.ones((128, n)) (lines 350-352)
  let placeholder : DMat := reshape 128 n (List.replicate (128 * n) 1)
  -- _, meta = torch._structured_sparse_linear(placeholder, specified, mask) (line 354)
  let meta := (kernel (.dense placeholder) specified (maskToDMat m n maskT) none).2
  -- compressed_tensor[: m*n//2] = specified; compressed_tensor[m*n//2 :] = meta
  -- (lines 356-358): the slice assignments demand exactly matching lengths
  let metaFlat := meta.flatten
  if metaFlat.length ≠ csize - m * n / 2 then
    throw PyError.viewError
  pure ⟨(m, n), ⟨fresh_addr, original_tensor.dtype, specified_flat ++ metaFlat⟩,
        transposed⟩

/-! ### Helper lemmas about reshaping and reinterpretation -/

theorem reshape_length (m c : Nat) (l : List Int) : (reshape m c l).length = m := by
  induction m generalizing l with
  | zero => rfl
  | succ m ih => simp [reshape, ih]

theorem reshape_row_length (m c : Nat) (l : List Int) (h : m * c ≤ l.length) :
    ∀ r ∈ reshape m c l, r.length = c := by
  induction m generalizing l with
  | zero => intro r hr; simp [reshape] at hr
  | succ m ih =>
    intro r hr
    rw [Nat.succ_mul] at h
    simp only [reshape, List.mem_cons] at hr
    rcases hr with rfl | hr
    · rw [List.length_take]
      have hc : c ≤ l.length := le_trans (Nat.le_add_left _ _) h
      omega
    · refine ih (l.drop c) ?_ r hr
      rw [List.length_drop]
      omega

theorem reshape_flatten (m c : Nat) (l : List Int) (h : l.length = m * c) :
    (reshape m c l).flatten = l := by
  induction m generalizing l with
  | zero =>
    rw [Nat.zero_mul] at h
    rw [List.eq_nil_of_length_eq_zero h]
    rfl
  | succ m ih =>
    rw [Nat.succ_mul] at h
    simp only [reshape, List.flatten_cons]
    rw [ih (l.drop c) (by rw [List.length_drop]; omega)]
    exact List.take_append_drop c l

theorem packInt8To32_length (n : Nat) :
    ∀ l : List Int, l.length = 4 * n → (packInt8To32 l).length = n := by
  induction n with
  | zero =>
    intro l h
    rw [Nat.mul_zero] at h
    rw [List.eq_nil_of_length_eq_zero h]
    rfl
  | succ n ih =>
    intro l h
    rcases l with _ | ⟨b0, _ | ⟨b1, _ | ⟨b2, _ | ⟨b3, rest⟩⟩⟩⟩
    · simp at h
    · simp at h; omega
    · simp at h; omega
    · simp at h; omega
    · simp only [packInt8To32, List.length_cons]
      rw [ih rest (by simp at h; omega)]

/-! ### Concrete demonstration values used by the witnesses -/

/-- A concrete stand-in for the external kernel in witnesses. -/
def demoKernel : Kernel := fun _ _ _ _ => ([[7]], [[0]])

/-- A tiny concrete float16 wrapper instance (shape (2, 4), five buffer
elements, given transposed flag). -/
def demoSparseF (tp : Bool) : SparseSemiStructuredTensor :=
  ⟨(2, 4), ⟨0, .float16, [1, 2, 3, 4, 5]⟩, tp⟩

/-! ### The claims -/

/-- C1: for the `mm` operator, a compressed left operand `A` with
`transposed = false` against a dense `B` yields
`kernel(Bᵗ, values(A), indices(A))ᵗ` (the kernel result transposed back), and a
compressed right operand `C` with `transposed = true` against a dense left `D`
yields `kernel(D, values(C), indices(C))` with no extra transpose.  Each path
makes exactly one kernel call. -/
theorem C1_mm_orientation (kernel : Kernel) (A C : SparseSemiStructuredTensor)
    (B D : DMat) (ia ic : DMat)
    (hA : A.transposed = false) (hia : A.indices = some ia)
    (hC : C.transposed = true) (hic : C.indices = some ic) :
    torch_dispatch kernel .mm [.sparse A, .dense B]
      = .ok (.dense (transposeD
          (kernel (.dense (transposeD B)) A.values ia none).1), 1)
    ∧ torch_dispatch kernel .mm [.dense D, .sparse C]
      = .ok (.dense (kernel (.dense D) C.values ic none).1, 1) := by
  constructor
  · simp [torch_dispatch, hA, hia, operandT]
  · simp [torch_dispatch, hC, hic]

/-- Witness for C1 at concrete inputs. -/
theorem C1_mm_orientation_witness :
    (demoSparseF false).transposed = false
    ∧ (demoSparseF false).indices = some [[], []]
    ∧ (demoSparseF true).transposed = true
    ∧ torch_dispatch demoKernel .mm
        [.sparse (demoSparseF false), .dense [[1, 2], [3, 4]]]
      = .ok (.dense (transposeD
          (demoKernel (.dense (transposeD [[1, 2], [3, 4]]))
            (demoSparseF false).values [[], []] none).1), 1)
    ∧ torch_dispatch demoKernel .mm
        [.dense [[5, 6], [7, 8]], .sparse (demoSparseF true)]
      = .ok (.dense (demoKernel (.dense [[5, 6], [7, 8]])
          (demoSparseF true).values [[], []] none).1, 1) := by
  refine ⟨rfl, by decide, rfl, ?_, ?_⟩
  · exact (C1_mm_orientation demoKernel (demoSparseF false) (demoSparseF true)
      [[1, 2], [3, 4]] [[5, 6], [7, 8]] [[], []] [[], []]
      rfl (by decide) rfl (by decide)).1
  · exact (C1_mm_orientation demoKernel (demoSparseF false) (demoSparseF true)
      [[1, 2], [3, 4]] [[5, 6], [7, 8]] [[], []] [[], []]
      rfl (by decide) rfl (by decide)).2

/-- C3: for `addmm(bias, dense, compressed-transposed)` the dispatcher makes
exactly one kernel call `kernel(dense_input, values(right), indices(right),
bias)` and returns its dense product. -/
theorem C3_addmm_bias_kernel_call (kernel : Kernel) (bias A : DMat)
    (B : SparseSemiStructuredTensor) (ib : DMat)
    (hB : B.transposed = true) (hib : B.indices = some ib) :
    torch_dispatch kernel .addmm [.dense bias, .dense A, .sparse B]
      = .ok (.dense (kernel (.dense A) B.values ib (some (.dense bias))).1, 1) := by
  simp [torch_dispatch, hB, hib]

/-- Witness for C3 at concrete inputs. -/
theorem C3_addmm_bias_kernel_call_witness :
    (demoSparseF true).transposed = true
    ∧ (demoSparseF true).indices = some [[], []]
    ∧ torch_dispatch demoKernel .addmm
        [.dense [[9]], .dense [[1, 2], [3, 4]], .sparse (demoSparseF true)]
      = .ok (.dense (demoKernel (.dense [[1, 2], [3, 4]])
          (demoSparseF true).values [[], []] (some (.dense [[9]]))).1, 1) :=
  ⟨rfl, by decide,
    C3_addmm_bias_kernel_call demoKernel [[9]] [[1, 2], [3, 4]]
      (demoSparseF true) [[], []] rfl (by decide)⟩

/-- C4: for the `linear` operator with a compressed weight, the dispatcher
invokes `kernel(input, values(weight), indices(weight), bias)` (one kernel
call) regardless of the weight's transposed flag. -/
theorem C4_linear_any_transposed (kernel : Kernel) (inp bias : DMat)
    (w : SparseSemiStructuredTensor) (iw : DMat)
    (hiw : w.indices = some iw) :
    torch_dispatch kernel .linear [.dense inp, .sparse w, .dense bias]
      = .ok (.dense (kernel (.dense inp) w.values iw (some (.dense bias))).1, 1) := by
  simp [torch_dispatch, hiw]

/-- Witness for C4 at concrete inputs, covering both transposed states. -/
theorem C4_linear_any_transposed_witness :
    (demoSparseF false).indices = some [[], []]
    ∧ (demoSparseF true).indices = some [[], []]
    ∧ torch_dispatch demoKernel .linear
        [.dense [[1]], .sparse (demoSparseF false), .dense [[2]]]
      = .ok (.dense (demoKernel (.dense [[1]])
          (demoSparseF false).values [[], []] (some (.dense [[2]]))).1, 1)
    ∧ torch_dispatch demoKernel .linear
        [.dense [[1]], .sparse (demoSparseF true), .dense [[2]]]
      = .ok (.dense (demoKernel (.dense [[1]])
          (demoSparseF true).values [[], []] (some (.dense [[2]]))).1, 1) :=
  ⟨by decide, by decide,
    C4_linear_any_transposed demoKernel [[1]] [[2]] (demoSparseF false)
      [[], []] (by decide),
    C4_linear_any_transposed demoKernel [[1]] [[2]] (demoSparseF true)
      [[], []] (by decide)⟩

/-- C6: `transpose` produces a new instance with the same logical shape and the
identical compressed buffer (reference equality is modelled by equality of the
`Buffer` value including its allocation address) and the flag inverted; it
never mutates the buffer, and applying it twice restores the original flag over
the identical buffer. -/
theorem C6_transpose_flips_flag (kernel : Kernel)
    (x : SparseSemiStructuredTensor) :
    torch_dispatch kernel .t [.sparse x]
      = .ok (.sparse ⟨x.shape, x.compressed_tensor, !x.transposed⟩, 0)
    ∧ torch_dispatch kernel .t
        [.sparse ⟨x.shape, x.compressed_tensor, !x.transposed⟩]
      = .ok (.sparse x, 0) := by
  cases x
  simp [torch_dispatch]

/-- C9: `detach` produces a new instance whose compressed buffer is the
identical reference and whose shape and transposed flag are unchanged — i.e.
an instance structurally identical to the operand; no field changes. -/
theorem C9_detach_preserves_fields (kernel : Kernel)
    (x : SparseSemiStructuredTensor) :
    torch_dispatch kernel .detach [.sparse x] = .ok (.sparse x, 0) := by
  cases x
  rfl

/-- C5: dispatch fails closed.  Every operator outside the handled set yields
the unsupported-operator error whose payload (the diagnostic lines) names the
operator and renders every operand, and the mismatched-parity `mm`/`addmm`
combinations (compressed left operand with `transposed = true`, compressed
right operand with `transposed = false`) fall through to the same error; no
dense fallback result is produced. -/
theorem C5_dispatch_fails_closed (kernel : Kernel) :
    (∀ (name : String) (args : List Operand),
        torch_dispatch kernel (.other name) args
          = .error (.notImplementedOp (errorLines (.other name) args)))
    ∧ (∀ (f : ATen) (args : List Operand),
        errorLines f args
          = ("func " ++ atenName f ++ " with args: ")
              :: (args.enum.map fun p =>
                    "arg" ++ toString p.1 ++ ": " ++ renderOperand p.2))
    ∧ (∀ (A : SparseSemiStructuredTensor) (B : DMat), A.transposed = true →
        torch_dispatch kernel .mm [.sparse A, .dense B]
          = .error (.notImplementedOp (errorLines .mm [.sparse A, .dense B])))
    ∧ (∀ (A : DMat) (B : SparseSemiStructuredTensor), B.transposed = false →
        torch_dispatch kernel .mm [.dense A, .sparse B]
          = .error (.notImplementedOp (errorLines .mm [.dense A, .sparse B])))
    ∧ (∀ (bias A : Operand) (B : SparseSemiStructuredTensor), B.transposed = false →
        torch_dispatch kernel .addmm [bias, A, .sparse B]
          = .error (.notImplementedOp (errorLines .addmm [bias, A, .sparse B]))) := by
  refine ⟨?_, ?_, ?_, ?_, ?_⟩
  · intro name args; rfl
  · intro f args; rfl
  · intro A B hA; simp [torch_dispatch, hA]
  · intro A B hB; simp [torch_dispatch, hB]
  · intro bias A B hB; simp [torch_dispatch, hB]

/-- Witness for C5 at concrete inputs. -/
theorem C5_dispatch_fails_closed_witness :
    (demoSparseF true).transposed = true
    ∧ (demoSparseF false).transposed = false
    ∧ torch_dispatch demoKernel (.other "aten.add.Tensor")
        [.sparse (demoSparseF true)]
      = .error (.notImplementedOp
          (errorLines (.other "aten.add.Tensor") [.sparse (demoSparseF true)]))
    ∧ torch_dispatch demoKernel .mm [.sparse (demoSparseF true), .dense [[1]]]
      = .error (.notImplementedOp
          (errorLines .mm [.sparse (demoSparseF true), .dense [[1]]]))
    ∧ torch_dispatch demoKernel .mm [.dense [[1]], .sparse (demoSparseF false)]
      = .error (.notImplementedOp
          (errorLines .mm [.dense [[1]], .sparse (demoSparseF false)]))
    ∧ torch_dispatch demoKernel .addmm
        [.dense [[1]], .dense [[2]], .sparse (demoSparseF false)]
      = .error (.notImplementedOp (errorLines .addmm
          [.dense [[1]], .dense [[2]], .sparse (demoSparseF false)])) :=
  ⟨rfl, rfl,
    (C5_dispatch_fails_closed demoKernel).1 "aten.add.Tensor"
      [.sparse (demoSparseF true)],
    (C5_dispatch_fails_closed demoKernel).2.2.1 (demoSparseF true) [[1]] rfl,
    (C5_dispatch_fails_closed demoKernel).2.2.2.1 [[1]] (demoSparseF false) rfl,
    (C5_dispatch_fails_closed demoKernel).2.2.2.2 (.dense [[1]]) (.dense [[2]])
      (demoSparseF false) rfl⟩

/-- C10: values/indices extraction is independent of the transposed flag: the
result of `transpose` has the same `values`, the same `indices`, and the same
reported `(m, k)` shape (transpose does not swap it) as the original, because
extraction reads only the logical shape and the compressed buffer. -/
theorem C10_extraction_ignores_transposed (kernel : Kernel)
    (x y : SparseSemiStructuredTensor)
    (h : torch_dispatch kernel .t [.sparse x] = .ok (.sparse y, 0)) :
    y.values = x.values ∧ y.indices = x.indices ∧ y.shape = x.shape := by
  simp only [torch_dispatch, Except.ok.injEq, Prod.mk.injEq,
    Operand.sparse.injEq, and_true] at h
  subst h
  exact ⟨rfl, rfl, rfl⟩

/-- Witness for C10 at a concrete instance. -/
theorem C10_extraction_ignores_transposed_witness :
    torch_dispatch demoKernel .t [.sparse (demoSparseF false)]
      = .ok (.sparse (demoSparseF true), 0)
    ∧ ((demoSparseF true).values = (demoSparseF false).values
       ∧ (demoSparseF true).indices = (demoSparseF false).indices
       ∧ (demoSparseF true).shape = (demoSparseF false).shape) :=
  ⟨rfl, C10_extraction_ignores_transposed demoKernel (demoSparseF false)
    (demoSparseF true) rfl⟩

/-- C2 (code bug): on an input satisfying every documented precondition — a
CUDA float16 tensor of shape (64, 64) with a mask supplied — construction does
not succeed: the class statement of `SparseSemiStructuredTensor` evaluates the
default-parameter expression `Flase` of `__new__` (line 46), a name bound
nowhere, so `NameError` is raised instead of a compressed instance being
returned (and instead of any of the documented validation errors on invalid
inputs). -/
theorem C2_construction_raises_nameError :
    to_sparse_semi_structured demoKernel 0
      ⟨true, [64, 64], .float16, List.replicate 4096 1⟩
      (some ((List.range 4096).map fun i => decide (i % 4 < 2))) false
      = .error (.nameError "Flase") := by
  rfl

/-- C8: for admissible shapes, the compressed buffer length computed at
construction (`original_size_bytes * compression_factor / 16 / element_size`)
decomposes exactly as the `m*k/2` kept-value elements plus a metadata region
fixed by shape and dtype: `m*k/16` elements for float16 (factor 9), `m*k/8`
elements for int8 (factor 10); the divisions involved are exact. -/
theorem C8_compressed_size_decomposition (m k : Nat) (c : Bool) (d : List Int) :
    ((64 ∣ m) → (64 ∣ k) →
      compressed_size ⟨c, [m, k], .float16, d⟩ = m * k / 2 + m * k / 16
        ∧ 2 ∣ m * k ∧ 16 ∣ m * k)
    ∧ ((128 ∣ m) → (128 ∣ k) →
      compressed_size ⟨c, [m, k], .int8, d⟩ = m * k / 2 + m * k / 8
        ∧ 2 ∣ m * k ∧ 8 ∣ m * k) := by
  constructor
  · rintro ⟨a, rfl⟩ ⟨b, rfl⟩
    refine ⟨?_, ⟨2048 * (a * b), by ring⟩, ⟨256 * (a * b), by ring⟩⟩
    show 64 * a * (64 * b * 1) * 2 * 9 / 16 / 2
      = 64 * a * (64 * b) / 2 + 64 * a * (64 * b) / 16
    have e1 : 64 * a * (64 * b * 1) * 2 * 9 = 73728 * (a * b) := by ring
    have e2 : 64 * a * (64 * b) = 4096 * (a * b) := by ring
    rw [e1, e2]
    omega
  · rintro ⟨a, rfl⟩ ⟨b, rfl⟩
    refine ⟨?_, ⟨8192 * (a * b), by ring⟩, ⟨2048 * (a * b), by ring⟩⟩
    show 128 * a * (128 * b * 1) * 1 * 10 / 16 / 1
      = 128 * a * (128 * b) / 2 + 128 * a * (128 * b) / 8
    have e1 : 128 * a * (128 * b * 1) * 1 * 10 = 163840 * (a * b) := by ring
    have e2 : 128 * a * (128 * b) = 16384 * (a * b) := by ring
    rw [e1, e2]
    omega

/-- Witness for C8 at the concrete shapes (64, 64) float16 and
(128, 128) int8. -/
theorem C8_compressed_size_decomposition_witness :
    ((64:Nat) ∣ 64) ∧ ((128:Nat) ∣ 128)
    ∧ (compressed_size ⟨true, [64, 64], .float16, []⟩
        = 64 * 64 / 2 + 64 * 64 / 16
       ∧ 2 ∣ 64 * 64 ∧ 16 ∣ 64 * 64)
    ∧ (compressed_size ⟨true, [128, 128], .int8, []⟩
        = 128 * 128 / 2 + 128 * 128 / 8
       ∧ 2 ∣ 128 * 128 ∧ 8 ∣ 128 * 128) :=
  ⟨by decide, by decide,
    (C8_compressed_size_decomposition 64 64 true []).1 (by decide) (by decide),
    (C8_compressed_size_decomposition 128 128 true []).2 (by decide) (by decide)⟩

/-- A concrete valid-size float16 instance (shape (64, 64), buffer of
2048 + 256 = 2304 elements). -/
def demoBigF : SparseSemiStructuredTensor :=
  ⟨(64, 64), ⟨1, .float16, List.replicate 2304 0⟩, false⟩

/-- A concrete valid-size int8 instance (shape (128, 128), buffer of
8192 + 2048 = 10240 elements). -/
def demoBigI : SparseSemiStructuredTensor :=
  ⟨(128, 128), ⟨2, .int8, List.replicate 10240 0⟩, false⟩

/-- C7: for a valid compressed instance of logical shape (m, k), `values()`
returns exactly the first `m*k/2` buffer elements reshaped to `(m, k/2)` —
half the logical element count — and `indices()` returns exactly the remaining
buffer elements reshaped to `(m, metadata_cols)`, reinterpreted to a 16-bit
integer view for float16 (element-wise identity on the 16-bit payloads, so
`k/16` columns) and to a 32-bit integer view for int8 (4 bytes packed per
entry: `k/8` metadata bytes per row become `k/32` columns). -/
theorem C7_values_indices_layout (x : SparseSemiStructuredTensor) (m k : Nat)
    (hshape : x.shape = (m, k)) :
    (x.dtype = .float16 → 64 ≤ m → 64 ∣ m → 64 ∣ k →
      x.compressed_tensor.data.length = m * k / 2 + m * k / 16 →
        x.values.length = m
        ∧ (∀ r ∈ x.values, r.length = k / 2)
        ∧ x.values.flatten = x.compressed_tensor.data.take (m * k / 2)
        ∧ x.indices = some x.metadataRaw
        ∧ x.metadataRaw.length = m
        ∧ (∀ r ∈ x.metadataRaw, r.length = k / 16)
        ∧ x.metadataRaw.flatten = x.compressed_tensor.data.drop (m * k / 2))
    ∧ (x.dtype = .int8 → 128 ≤ m → 128 ∣ m → 128 ∣ k →
      x.compressed_tensor.data.length = m * k / 2 + m * k / 8 →
        x.values.length = m
        ∧ (∀ r ∈ x.values, r.length = k / 2)
        ∧ x.values.flatten = x.compressed_tensor.data.take (m * k / 2)
        ∧ x.indices = some (x.metadataRaw.map packInt8To32)
        ∧ x.metadataRaw.length = m
        ∧ (∀ r ∈ x.metadataRaw, r.length = k / 8)
        ∧ x.metadataRaw.flatten = x.compressed_tensor.data.drop (m * k / 2)
        ∧ (∀ r ∈ x.metadataRaw.map packInt8To32, r.length = k / 32)) := by
  obtain ⟨sh, ⟨addr, dt, data⟩, tp⟩ := x
  simp only [SparseSemiStructuredTensor.dtype] at *
  subst hshape
  constructor
  · intro hdt h64m hdm hdk hlen
    subst hdt
    have h2k : (2:Nat) ∣ k := dvd_trans (by norm_num) hdk
    have h16k : (16:Nat) ∣ k := dvd_trans (by norm_num) hdk
    have hm0 : 0 < m := lt_of_lt_of_le (by norm_num) h64m
    have hmk2 : m * k / 2 = m * (k / 2) := Nat.mul_div_assoc m h2k
    have hmk16 : m * k / 16 = m * (k / 16) := Nat.mul_div_assoc m h16k
    simp only [SparseSemiStructuredTensor.values,
      SparseSemiStructuredTensor.metadataRaw, SparseSemiStructuredTensor.indices,
      SparseSemiStructuredTensor.dtype] at *
    have htake : (data.take (m * k / 2)).length = m * (k / 2) := by
      rw [List.length_take, hlen]
      omega
    have hdroplen : (data.drop (m * k / 2)).length = m * (k / 16) := by
      rw [List.length_drop, hlen]
      omega
    have hwidth : (data.drop (m * k / 2)).length / m = k / 16 := by
      rw [hdroplen, Nat.mul_div_cancel_left _ hm0]
    refine ⟨reshape_length _ _ _, ?_, ?_, trivial, ?_, ?_, ?_⟩
    · exact reshape_row_length _ _ _ (le_of_eq htake.symm)
    · exact reshape_flatten _ _ _ htake
    · rw [hwidth]; exact reshape_length _ _ _
    · rw [hwidth]
      exact reshape_row_length _ _ _ (le_of_eq (by rw [hdroplen]))
    · rw [hwidth]
      exact reshape_flatten _ _ _ (by rw [hdroplen])
  · intro hdt h128m hdm hdk hlen
    subst hdt
    have h2k : (2:Nat) ∣ k := dvd_trans (by norm_num) hdk
    have h8k : (8:Nat) ∣ k := dvd_trans (by norm_num) hdk
    have h32k : (32:Nat) ∣ k := dvd_trans (by norm_num) hdk
    have hm0 : 0 < m := lt_of_lt_of_le (by norm_num) h128m
    have hmk2 : m * k / 2 = m * (k / 2) := Nat.mul_div_assoc m h2k
    have hmk8 : m * k / 8 = m * (k / 8) := Nat.mul_div_assoc m h8k
    simp only [SparseSemiStructuredTensor.values,
      SparseSemiStructuredTensor.metadataRaw, SparseSemiStructuredTensor.indices,
      SparseSemiStructuredTensor.dtype] at *
    have htake : (data.take (m * k / 2)).length = m * (k / 2) := by
      rw [List.length_take, hlen]
      omega
    have hdroplen : (data.drop (m * k / 2)).length = m * (k / 8) := by
      rw [List.length_drop, hlen]
      omega
    have hwidth : (data.drop (m * k / 2)).length / m = k / 8 := by
      rw [hdroplen, Nat.mul_div_cancel_left _ hm0]
    have hrows : ∀ r ∈ reshape m ((data.drop (m * k / 2)).length / m)
        (data.drop (m * k / 2)), r.length = k / 8 := by
      rw [hwidth]
      exact reshape_row_length _ _ _ (le_of_eq (by rw [hdroplen]))
    refine ⟨reshape_length _ _ _, ?_, ?_, trivial, ?_, hrows, ?_, ?_⟩
    · exact reshape_row_length _ _ _ (le_of_eq htake.symm)
    · exact reshape_flatten _ _ _ htake
    · rw [hwidth]; exact reshape_length _ _ _
    · rw [hwidth]
      exact reshape_flatten _ _ _ (by rw [hdroplen])
    · intro r hr
      rw [List.mem_map] at hr
      obtain ⟨r0, hr0, rfl⟩ := hr
      have hr0len : r0.length = k / 8 := hrows r0 hr0
      refine packInt8To32_length (k / 32) r0 ?_
      rw [hr0len]
      obtain ⟨u, rfl⟩ := h32k
      omega

/-- Witness for C7: both branches applied to concrete valid instances. -/
theorem C7_values_indices_layout_witness :
    (demoBigF.shape = (64, 64) ∧ demoBigF.dtype = .float16
     ∧ demoBigF.compressed_tensor.data.length = 64 * 64 / 2 + 64 * 64 / 16)
    ∧ (demoBigF.values.length = 64
       ∧ (∀ r ∈ demoBigF.values, r.length = 64 / 2)
       ∧ demoBigF.values.flatten
           = demoBigF.compressed_tensor.data.take (64 * 64 / 2)
       ∧ demoBigF.indices = some demoBigF.metadataRaw
       ∧ demoBigF.metadataRaw.length = 64
       ∧ (∀ r ∈ demoBigF.metadataRaw, r.length = 64 / 16)
       ∧ demoBigF.metadataRaw.flatten
           = demoBigF.compressed_tensor.data.drop (64 * 64 / 2))
    ∧ (demoBigI.shape = (128, 128) ∧ demoBigI.dtype = .int8
       ∧ demoBigI.compressed_tensor.data.length = 128 * 128 / 2 + 128 * 128 / 8)
    ∧ (demoBigI.values.length = 128
       ∧ (∀ r ∈ demoBigI.values, r.length = 128 / 2)
       ∧ demoBigI.values.flatten
           = demoBigI.compressed_tensor.data.take (128 * 128 / 2)
       ∧ demoBigI.indices = some (demoBigI.metadataRaw.map packInt8To32)
       ∧ demoBigI.metadataRaw.length = 128
       ∧ (∀ r ∈ demoBigI.metadataRaw, r.length = 128 / 8)
       ∧ demoBigI.metadataRaw.flatten
           = demoBigI.compressed_tensor.data.drop (128 * 128 / 2)
       ∧ (∀ r ∈ demoBigI.metadataRaw.map packInt8To32, r.length = 128 / 32)) :=
  ⟨⟨rfl, rfl, by simp only [demoBigF, List.length_replicate]⟩,
    (C7_values_indices_layout demoBigF 64 64 rfl).1 rfl (by norm_num)
      (by norm_num) (by norm_num)
      (by simp only [demoBigF, List.length_replicate]),
    ⟨rfl, rfl, by simp only [demoBigI, List.length_replicate]⟩,
    (C7_values_indices_layout demoBigI 128 128 rfl).2 rfl (by norm_num)
      (by norm_num) (by norm_num)
      (by simp only [demoBigI, List.length_replicate])⟩

end SemiStructured
